import Mathlib

/-!
# dataService.js: the Firestore access layer

A shallow embedding of `src/services/dataService.js`.

* JavaScript values are the inductive `JsValue`; the three operations of the
  language the file relies on (`v.name`, `a || b`, string conversion inside a
  template literal) are `getProp`, `or` and `stringifies`.
* The remote `predictions` collection is a map from document id to document.
  Every call of the client library is given its outcome from outside
  (`Remote`): it is either carried out on the map or it raises a value.
* An `async` function settles in a `Completion`: it resolves with a `Result`
  or it rejects.  A run also yields the collection afterwards and the lines
  written to the console.
* Module initialisation (`initModule`) receives the value of
  `process.env.SERVICE_ACCOUNT_KEY` and what `JSON.parse` makes of it.
-/

namespace DataService

/-! ## JavaScript values -/

/-- The JavaScript values the file can meet: primitives, plain objects whose own
properties are data properties with string keys, and arrays. -/
inductive JsValue where
  | undefined
  | null
  | bool (b : Bool)
  | number (q : Rat)
  | nan
  | infinity (negative : Bool)
  | bigint (i : Int)
  | string (s : String)
  | symbol
  | object (fields : List (String × JsValue))
  | array (items : List JsValue)

/-- A fault raised by the language itself rather than by a `throw` statement. -/
inductive Fault where
  | typeError
  deriving DecidableEq, Repr

namespace JsValue

/-- Property read `v.name`, for a name that no built-in prototype defines
(`message`, `private_key`, `project_id`, `client_email`).  Reading from
`undefined` or `null` raises a TypeError; a primitive or an array has no such
property; an object yields its own property or `undefined`. -/
def getProp (v : JsValue) (name : String) : Except Fault JsValue :=
  match v with
  | undefined => .error .typeError
  | null => .error .typeError
  | object fields => .ok ((fields.lookup name).getD undefined)
  | _ => .ok undefined

/-- ToBoolean: the falsy values are `undefined`, `null`, `false`, `0`, `NaN`,
`0n` and the empty string. -/
def truthy : JsValue → Bool
  | undefined => false
  | null => false
  | bool b => b
  | number q => decide (q ≠ 0)
  | nan => false
  | bigint i => decide (i ≠ 0)
  | string s => decide (s ≠ "")
  | _ => true

/-- The operator `a || b`. -/
def or (a b : JsValue) : JsValue :=
  if a.truthy then a else b

mutual
/-- Whether ToString, as a template literal applies it to an interpolated
value, returns (rather than raising a TypeError).  A symbol does not convert.
A plain object converts through `Object.prototype.toString` unless an own data
property `toString` shadows it with something that cannot be called.  An array
converts through `join`, which converts every element other than `undefined`
and `null`. -/
def stringifies : JsValue → Bool
  | symbol => false
  | object fields => (fields.lookup "toString").isNone
  | array items => itemsStringify items
  | _ => true
/-- The elements of an array all convert, `undefined` and `null` being skipped. -/
def itemsStringify : List JsValue → Bool
  | [] => true
  | undefined :: rest => itemsStringify rest
  | null :: rest => itemsStringify rest
  | x :: rest => stringifies x && itemsStringify rest
end

end JsValue

open JsValue

/-! ## Results, console, remote collection -/

/-- The envelope `{ success, data?, error? }`; an absent field is `none`. -/
structure Result where
  success : Bool
  data : Option JsValue := none
  error : Option JsValue := none

/-- How the promise of an `async` function settles. -/
inductive Completion where
  | resolved (result : Result)
  | rejected (fault : Fault)

/-- The console method a line is written with. -/
inductive Level where
  | log
  | warn
  | error
  deriving DecidableEq, Repr

/-- One console call: its method, the template literal (holes kept as written),
the values interpolated into the holes, and the second argument if any. -/
structure ConsoleEntry where
  level : Level
  template : String
  holes : List JsValue
  extra : Option JsValue := none

/-- The `predictions` collection: a map from document id to document. -/
abbrev Collection := String → Option JsValue

/-- The collection holding no document. -/
def Collection.empty : Collection := fun _ => none

/-- Effect of `docRef.set(data)`: the document at `id` is `data`, whatever was
there before. -/
def Collection.set (c : Collection) (id : String) (data : JsValue) : Collection :=
  fun k => if k = id then some data else c k

/-- Effect of `docRef.delete()`: no document at `id`; nothing is checked first. -/
def Collection.delete (c : Collection) (id : String) : Collection :=
  fun k => if k = id then none else c k

/-- Outcome of the client-library calls inside one `try` block: they are carried
out on the collection, or one of them raises `error` and the collection stays
as it was. -/
inductive Remote where
  | performs
  | raises (error : JsValue)

/-- What one call of an access operation leaves behind. -/
structure Run where
  completion : Completion
  collection : Collection
  console : List ConsoleEntry

/-! ## The access operations -/

/-- The `catch (error)` block the three operations share in shape:
`console.error` with `error.message` interpolated, then
`return { success: false, error: error.message || fallback }`.
Reading `error.message` or converting it to text may itself raise, and nothing
catches that. -/
def catchBlock (template fallback : String) (error : JsValue) (c : Collection) : Run :=
  match error.getProp "message" with
  | .error fault => { completion := .rejected fault, collection := c, console := [] }
  | .ok message =>
    if message.stringifies then
      { completion := .resolved
          { success := false, error := some (message.or (.string fallback)) }
        collection := c
        console := [{ level := .error, template := template, holes := [message] }] }
    else
      { completion := .rejected .typeError, collection := c, console := [] }

/-- The function `storeData(id, data)`. -/
def storeData (remote : Remote) (c : Collection) (id : String) (data : JsValue) : Run :=
  match remote with
  | .performs =>
    { completion := .resolved { success := true }
      collection := c.set id data
      console := [{ level := .log
                    template := "[Firestore] Data berhasil disimpan dengan ID \"$\x7bid\x7d\":"
                    holes := [.string id]
                    extra := some data }] }
  | .raises error =>
    catchBlock "[Firestore] Error saat menyimpan data: $\x7berror.message\x7d"
      "Gagal menyimpan data" error c

/-- The function `getData(id)`. -/
def getData (remote : Remote) (c : Collection) (id : String) : Run :=
  match remote with
  | .performs =>
    match c id with
    | none =>
      { completion := .resolved
          { success := false, error := some (.string "Dokumen tidak ditemukan") }
        collection := c
        console := [{ level := .warn
                      template := "[Firestore] Dokumen dengan ID \"$\x7bid\x7d\" tidak ditemukan."
                      holes := [.string id] }] }
    | some document =>
      { completion := .resolved { success := true, data := some document }
        collection := c
        console := [{ level := .log
                      template := "[Firestore] Data dengan ID \"$\x7bid\x7d\" berhasil diambil:"
                      holes := [.string id]
                      extra := some document }] }
  | .raises error =>
    catchBlock "[Firestore] Error saat membaca data: $\x7berror.message\x7d"
      "Gagal membaca data" error c

/-- The function `deleteData(id)`. -/
def deleteData (remote : Remote) (c : Collection) (id : String) : Run :=
  match remote with
  | .performs =>
    { completion := .resolved { success := true }
      collection := c.delete id
      console := [{ level := .log
                    template := "[Firestore] Data dengan ID \"$\x7bid\x7d\" berhasil dihapus."
                    holes := [.string id] }] }
  | .raises error =>
    catchBlock "[Firestore] Error saat menghapus data: $\x7berror.message\x7d"
      "Gagal menghapus data" error c

/-- Whether the operation runs to a `return` under this remote outcome: the
call is carried out, or it raises a value whose `message` can be read and
converts to text for the `console.error` line. -/
def Remote.contained : Remote → Bool
  | .performs => true
  | .raises error =>
    match error.getProp "message" with
    | .ok message => message.stringifies
    | .error _ => false

/-- One call of an access operation. -/
inductive Call where
  | store (id : String) (data : JsValue)
  | get (id : String)
  | delete (id : String)

/-- Run one call under the given remote outcome. -/
def Call.run (remote : Remote) (c : Collection) : Call → Run
  | .store id data => storeData remote c id data
  | .get id => getData remote c id
  | .delete id => deleteData remote c id

/-- Whether the call is a store or a delete on `id`. -/
def Call.writes (id : String) : Call → Bool
  | .store k _ => decide (k = id)
  | .get _ => false
  | .delete k => decide (k = id)

/-- The collection after a sequence of calls, each with its own remote outcome. -/
def runCalls (c : Collection) : List (Remote × Call) → Collection
  | [] => c
  | (remote, call) :: rest => runCalls (call.run remote c).collection rest

/-! ## Module initialisation -/

/-- The replacement `.replace(/\\n/g, '\n')` on the characters of a string:
scanning from the left, every backslash followed by `n` becomes one line feed,
every other character is kept.  Both characters of the pattern are single code
units, so counting characters or code units gives the same change in length. -/
def replaceEscapedNewlines : List Char → List Char
  | '\\' :: 'n' :: rest => '\n' :: replaceEscapedNewlines rest
  | c :: rest => c :: replaceEscapedNewlines rest
  | [] => []

/-- The constant `formattedPrivateKey`, as a function of `private_key`. -/
def formattedPrivateKey (private_key : String) : String :=
  ⟨replaceEscapedNewlines private_key.data⟩

/-- The two-character sequence the replacement looks for. -/
def escapedNewline : List Char := ['\\', 'n']

/-- Number of occurrences of the two-character sequence in a string: the
positions at which it starts. -/
def occurrences (k : List Char) : Nat :=
  k.tails.countP (fun t => decide (escapedNewline <+: t))

/-- Message of the error thrown when the variable is not set. -/
def missingKeyMessage : String :=
  "SERVICE_ACCOUNT_KEY tidak ditemukan di .env file. Pastikan file .env telah dibuat dan berisi kredensial yang benar."

/-- Message of the error thrown when `JSON.parse` fails. -/
def unparsableKeyMessage : String :=
  "SERVICE_ACCOUNT_KEY tidak dapat diparsing. Pastikan JSON valid."

/-- The argument of `new Firestore(...)`. -/
structure Settings where
  projectId : JsValue
  client_email : JsValue
  private_key : String

/-- How loading the module ends: a `throw new Error(message)` at top level, a
fault of the language, or the statement `new Firestore(settings)` is reached
(after which `predictionsCollection` is bound to the collection `predictions`
and the four bindings are exported). -/
inductive ModuleLoad where
  | aborted (message : String)
  | faulted (fault : Fault)
  | constructs (settings : Settings)

/-- The value of `process.env.SERVICE_ACCOUNT_KEY`: a string, or `undefined`
when the variable is not set. -/
def envValue : Option String → JsValue
  | none => .undefined
  | some raw => .string raw

/-- The top-level statements of the module.  `env` is the variable after
`dotenv.config()`; `parsed` is what `JSON.parse` makes of its text, `none`
standing for the exception it throws on text that is not JSON. -/
def initModule (env : Option String) (parsed : Option JsValue) : ModuleLoad :=
  if !(envValue env).truthy then
    .aborted missingKeyMessage
  else
    match parsed with
    | none => .aborted unparsableKeyMessage
    | some serviceAccountKey =>
      match serviceAccountKey.getProp "private_key" with
      | .error fault => .faulted fault
      | .ok (.string private_key) =>
        match serviceAccountKey.getProp "project_id",
              serviceAccountKey.getProp "client_email" with
        | .ok project_id, .ok client_email =>
          .constructs
            { projectId := project_id
              client_email := client_email
              private_key := formattedPrivateKey private_key }
        | .error fault, _ => .faulted fault
        | _, .error fault => .faulted fault
      | .ok _ => .faulted .typeError

/-- Whether loading got as far as `new Firestore(settings)`, after which the
bindings are exported unless the client library rejects the settings.  When it
is `false`, no client was constructed and nothing is exported. -/
def ModuleLoad.exportsOperations : ModuleLoad → Bool
  | .constructs _ => true
  | _ => false


/-! ## Lemmas on the shared `catch` block and on the collection -/

theorem stringifies_of_falsy (m : JsValue) (h : m.truthy = false) : m.stringifies = true := by
  cases m <;> simp_all [truthy, stringifies]

theorem catchBlock_collection (template fallback : String) (error : JsValue) (c : Collection) :
    (catchBlock template fallback error c).collection = c := by
  unfold catchBlock
  split
  · rfl
  · split <;> rfl

theorem catchBlock_not_success (template fallback : String) (error : JsValue) (c : Collection)
    (r : Result) (h : (catchBlock template fallback error c).completion = .resolved r) :
    r.success = false := by
  unfold catchBlock at h
  split at h
  · simp at h
  · split at h
    · simp at h
      rw [← h]
    · simp at h

theorem catchBlock_of_message (template fallback : String) (error message : JsValue)
    (c : Collection) (hm : error.getProp "message" = .ok message)
    (hs : message.stringifies = true) :
    (catchBlock template fallback error c).completion
      = .resolved { success := false, error := some (message.or (.string fallback)) } := by
  unfold catchBlock
  rw [hm]
  simp [hs]

theorem storeData_performs_of_success (remote : Remote) (c : Collection) (id : String)
    (data : JsValue)
    (h : (storeData remote c id data).completion = .resolved { success := true }) :
    remote = .performs := by
  cases remote with
  | performs => rfl
  | raises error =>
    have := catchBlock_not_success _ _ _ _ _ h
    simp at this

theorem deleteData_performs_of_success (remote : Remote) (c : Collection) (id : String)
    (h : (deleteData remote c id).completion = .resolved { success := true }) :
    remote = .performs := by
  cases remote with
  | performs => rfl
  | raises error =>
    have := catchBlock_not_success _ _ _ _ _ h
    simp at this

theorem run_collection_of_not_writes (remote : Remote) (c : Collection) (call : Call)
    (id : String) (h : call.writes id = false) :
    (call.run remote c).collection id = c id := by
  cases call with
  | store k data =>
    have hk : ¬ id = k := fun e => by simp [Call.writes, e] at h
    cases remote with
    | performs => simp [Call.run, storeData, Collection.set, hk]
    | raises error => simp [Call.run, storeData, catchBlock_collection]
  | get k =>
    cases remote with
    | performs =>
      simp only [Call.run, getData]
      split <;> rfl
    | raises error => simp [Call.run, getData, catchBlock_collection]
  | delete k =>
    have hk : ¬ id = k := fun e => by simp [Call.writes, e] at h
    cases remote with
    | performs => simp [Call.run, deleteData, Collection.delete, hk]
    | raises error => simp [Call.run, deleteData, catchBlock_collection]

theorem runCalls_of_not_writes (calls : List (Remote × Call)) (c : Collection) (id : String)
    (h : ∀ rc ∈ calls, rc.2.writes id = false) :
    runCalls c calls id = c id := by
  induction calls generalizing c with
  | nil => rfl
  | cons rc rest ih =>
    obtain ⟨remote, call⟩ := rc
    simp only [runCalls]
    rw [ih _ (fun x hx => h x (List.mem_cons_of_mem _ hx))]
    exact run_collection_of_not_writes remote c call id (h (remote, call) (List.mem_cons_self _ _))

theorem getData_performs_of_some (c : Collection) (id : String) (document : JsValue)
    (h : c id = some document) :
    (getData .performs c id).completion
      = .resolved { success := true, data := some document } := by
  simp [getData, h]

theorem getData_performs_of_none (c : Collection) (id : String) (h : c id = none) :
    getData .performs c id
      = { completion := .resolved
            { success := false, error := some (.string "Dokumen tidak ditemukan") }
          collection := c
          console := [{ level := .warn
                        template := "[Firestore] Dokumen dengan ID \"$\x7bid\x7d\" tidak ditemukan."
                        holes := [.string id] }] } := by
  simp [getData, h]

theorem catchBlock_resolves_iff (template fallback : String) (error : JsValue)
    (c : Collection) :
    (∃ r, (catchBlock template fallback error c).completion = .resolved r)
      ↔ (Remote.raises error).contained = true := by
  unfold catchBlock Remote.contained
  cases hg : error.getProp "message" with
  | error fault => simp [hg]
  | ok message =>
    by_cases hs : message.stringifies = true
    · simp [hs, hg]
    · simp [hs, hg]

theorem or_of_nonempty_string (s fallback : String) (h : s ≠ "") :
    (JsValue.string s).or (.string fallback) = .string s := by
  simp [JsValue.or, truthy, h]

theorem or_of_falsy (message : JsValue) (fallback : String) (h : message.truthy = false) :
    message.or (.string fallback) = .string fallback := by
  simp [JsValue.or, h]

/-! ## The access operations: claims -/

/-- C1, counterexample.  When the remote call raises `null` or `undefined`, the
`catch` block faults on reading `error.message`: the promise of each of the
three operations rejects with a TypeError and no Result is returned.  The same
happens when the raised value carries a symbol as its `message`, which the
`console.error` line cannot convert to text.  And when the raised value carries
the number `42` as its `message`, the Result's `error` is that number, not a
string. -/
theorem raised_null_escapes_catch :
    (storeData (.raises .null) Collection.empty "pred-1" (.object [])).completion
        = .rejected .typeError ∧
      (getData (.raises .undefined) Collection.empty "pred-1").completion
        = .rejected .typeError ∧
      (deleteData (.raises .null) Collection.empty "pred-1").completion
        = .rejected .typeError ∧
      (getData (.raises (.object [("message", .symbol)])) Collection.empty "pred-1").completion
        = .rejected .typeError ∧
      (storeData (.raises (.object [("message", .number 42)])) Collection.empty "pred-1"
          (.object [])).completion
        = .resolved { success := false, data := none, error := some (.number 42) } :=
  ⟨rfl, rfl, rfl, rfl, rfl⟩

/-- C1, as amended.  For every id, payload, collection and remote outcome:
each of `storeData`, `getData` and `deleteData` resolves with a Result exactly
when the remote call succeeds or raises a value other than `null`/`undefined`
whose `message` converts to text (otherwise the promise rejects).  When the
remote call failed and the operation resolves, the Result is
`{success: false, error: message || fallback}` with no `data`, the fallback
being the operation's own text.  So when the raised `message` is a non-empty
string the `error` is that string, and when it is falsy (absent, empty,
`undefined`, ...) the `error` is `Gagal menyimpan data` for `storeData`,
`Gagal membaca data` for `getData` and `Gagal menghapus data` for
`deleteData`: in both cases a non-empty string. -/
theorem operations_contain_remote_failures (remote : Remote) (c : Collection) (id : String)
    (data : JsValue) :
    ((∃ r, (storeData remote c id data).completion = .resolved r) ↔ remote.contained = true) ∧
      ((∃ r, (getData remote c id).completion = .resolved r) ↔ remote.contained = true) ∧
      ((∃ r, (deleteData remote c id).completion = .resolved r) ↔ remote.contained = true) ∧
      (∀ error message, remote = .raises error → error.getProp "message" = .ok message →
        message.stringifies = true →
        (storeData remote c id data).completion
            = .resolved { success := false, data := none,
                          error := some (message.or (.string "Gagal menyimpan data")) } ∧
          (getData remote c id).completion
            = .resolved { success := false, data := none,
                          error := some (message.or (.string "Gagal membaca data")) } ∧
          (deleteData remote c id).completion
            = .resolved { success := false, data := none,
                          error := some (message.or (.string "Gagal menghapus data")) }) ∧
      (∀ error s, remote = .raises error → error.getProp "message" = .ok (.string s) →
        s ≠ "" →
        (storeData remote c id data).completion
            = .resolved { success := false, data := none, error := some (.string s) } ∧
          (getData remote c id).completion
            = .resolved { success := false, data := none, error := some (.string s) } ∧
          (deleteData remote c id).completion
            = .resolved { success := false, data := none, error := some (.string s) }) ∧
      (∀ error message, remote = .raises error → error.getProp "message" = .ok message →
        message.truthy = false →
        (storeData remote c id data).completion
            = .resolved { success := false, data := none,
                          error := some (.string "Gagal menyimpan data") } ∧
          (getData remote c id).completion
            = .resolved { success := false, data := none,
                          error := some (.string "Gagal membaca data") } ∧
          (deleteData remote c id).completion
            = .resolved { success := false, data := none,
                          error := some (.string "Gagal menghapus data") }) := by
  have hexact : ∀ error message, remote = .raises error →
      error.getProp "message" = .ok message → message.stringifies = true →
      (storeData remote c id data).completion
          = .resolved { success := false, data := none,
                        error := some (message.or (.string "Gagal menyimpan data")) } ∧
        (getData remote c id).completion
          = .resolved { success := false, data := none,
                        error := some (message.or (.string "Gagal membaca data")) } ∧
        (deleteData remote c id).completion
          = .resolved { success := false, data := none,
                        error := some (message.or (.string "Gagal menghapus data")) } := by
    rintro error message rfl hm hs
    exact ⟨catchBlock_of_message _ _ error message c hm hs,
      catchBlock_of_message _ _ error message c hm hs,
      catchBlock_of_message _ _ error message c hm hs⟩
  refine ⟨?_, ?_, ?_, hexact, ?_, ?_⟩
  · cases remote with
    | performs => exact ⟨fun _ => rfl, fun _ => ⟨_, rfl⟩⟩
    | raises error => exact catchBlock_resolves_iff _ _ error c
  · cases remote with
    | performs =>
      refine ⟨fun _ => rfl, fun _ => ?_⟩
      simp only [getData]
      split
      · exact ⟨_, rfl⟩
      · exact ⟨_, rfl⟩
    | raises error => exact catchBlock_resolves_iff _ _ error c
  · cases remote with
    | performs => exact ⟨fun _ => rfl, fun _ => ⟨_, rfl⟩⟩
    | raises error => exact catchBlock_resolves_iff _ _ error c
  · intro error s hr hm hs
    have h := hexact error (.string s) hr hm rfl
    simpa only [or_of_nonempty_string s _ hs] using h
  · intro error message hr hm hfalse
    have h := hexact error message hr hm (stringifies_of_falsy message hfalse)
    simpa only [or_of_falsy message _ hfalse] using h

/-- C1, witness: the three operations when the remote call raises an error with
the message `UNAVAILABLE`, and when it raises the bare string `boom`, which has
no `message`. -/
theorem operations_contain_remote_failures_witness :
    ((storeData (.raises (.object [("message", .string "UNAVAILABLE")])) Collection.empty
          "pred-1" (.object [])).completion
        = .resolved { success := false, data := none, error := some (.string "UNAVAILABLE") } ∧
      (getData (.raises (.object [("message", .string "UNAVAILABLE")])) Collection.empty
          "pred-1").completion
        = .resolved { success := false, data := none, error := some (.string "UNAVAILABLE") } ∧
      (deleteData (.raises (.object [("message", .string "UNAVAILABLE")])) Collection.empty
          "pred-1").completion
        = .resolved { success := false, data := none, error := some (.string "UNAVAILABLE") }) ∧
    ((storeData (.raises (.string "boom")) Collection.empty "pred-1" (.object [])).completion
        = .resolved { success := false, data := none,
                      error := some (.string "Gagal menyimpan data") } ∧
      (getData (.raises (.string "boom")) Collection.empty "pred-1").completion
        = .resolved { success := false, data := none,
                      error := some (.string "Gagal membaca data") } ∧
      (deleteData (.raises (.string "boom")) Collection.empty "pred-1").completion
        = .resolved { success := false, data := none,
                      error := some (.string "Gagal menghapus data") }) :=
  ⟨(operations_contain_remote_failures
      (.raises (.object [("message", .string "UNAVAILABLE")])) Collection.empty "pred-1"
      (.object [])).2.2.2.2.1 _ "UNAVAILABLE" rfl rfl (by decide),
   (operations_contain_remote_failures (.raises (.string "boom")) Collection.empty "pred-1"
      (.object [])).2.2.2.2.2 _ .undefined rfl rfl rfl⟩

/-- C2.  With the collection a map from id to document: whenever
`storeData(id, data)` returns `{success: true}`, then after any sequence of
further calls none of which is a store or a delete on `id`, `getData(id)` on
the resulting collection returns exactly `{success: true, data: data}`. -/
theorem store_then_get_round_trip (remote : Remote) (c : Collection) (id : String)
    (data : JsValue) (between : List (Remote × Call))
    (hstore : (storeData remote c id data).completion = .resolved { success := true })
    (hbetween : ∀ rc ∈ between, rc.2.writes id = false) :
    (getData .performs (runCalls (storeData remote c id data).collection between) id).completion
      = .resolved { success := true, data := some data } := by
  have hr := storeData_performs_of_success remote c id data hstore
  subst hr
  apply getData_performs_of_some
  rw [runCalls_of_not_writes between _ id hbetween]
  simp [storeData, Collection.set]

/-- C2, witness: the payload of the spec's example stored under `pred-1`, then a
read of it, a store and a failing delete on other ids, then the read. -/
theorem store_then_get_round_trip_witness :
    (getData .performs
        (runCalls
          (storeData .performs Collection.empty "pred-1"
            (.object [("label", .string "cat"), ("score", .number (92 / 100))])).collection
          [(.performs, .get "pred-1"), (.performs, .store "pred-2" (.object [])),
           (.raises .null, .delete "pred-3")])
        "pred-1").completion
      = .resolved
          { success := true
            data := some (.object [("label", .string "cat"), ("score", .number (92 / 100))]) } :=
  store_then_get_round_trip .performs Collection.empty "pred-1" _ _ rfl
    (by
      intro rc hrc
      simp only [List.mem_cons, List.mem_singleton, List.mem_nil_iff, or_false] at hrc
      rcases hrc with rfl | rfl | rfl <;> decide)

/-- C3.  For every collection and every id with no document in it, when the
remote read is carried out `getData(id)` returns exactly
`{success: false, error: "Dokumen tidak ditemukan"}` with no `data` field; the
collection is untouched and the only console line is the warning, so the
`catch` block (which writes with `console.error`) is not entered. -/
theorem get_missing_document (c : Collection) (id : String) (h : c id = none) :
    (getData .performs c id).completion
        = .resolved { success := false, data := none,
                      error := some (.string "Dokumen tidak ditemukan") } ∧
      (getData .performs c id).collection = c ∧
      (getData .performs c id).console.map (fun entry => entry.level) = [Level.warn] := by
  rw [getData_performs_of_none c id h]
  exact ⟨rfl, rfl, rfl⟩

/-- C3, witness: `pred-1` in the empty collection. -/
theorem get_missing_document_witness :
    (getData .performs Collection.empty "pred-1").completion
        = .resolved { success := false, data := none,
                      error := some (.string "Dokumen tidak ditemukan") } ∧
      (getData .performs Collection.empty "pred-1").collection = Collection.empty ∧
      (getData .performs Collection.empty "pred-1").console.map (fun entry => entry.level)
        = [Level.warn] :=
  get_missing_document Collection.empty "pred-1" rfl

/-- C4.  After `storeData(id, d1)` and then `storeData(id, d2)` both return
`{success: true}`, the document at `id` is `d2` itself, `getData(id)` returns
`{success: true, data: d2}`, and a property that `d2` does not have reads as
`undefined` on the document, whether or not `d1` had it. -/
theorem second_store_overwrites (r1 r2 : Remote) (c : Collection) (id : String)
    (d1 d2 : JsValue)
    (h1 : (storeData r1 c id d1).completion = .resolved { success := true })
    (h2 : (storeData r2 (storeData r1 c id d1).collection id d2).completion
            = .resolved { success := true }) :
    (storeData r2 (storeData r1 c id d1).collection id d2).collection id = some d2 ∧
      (getData .performs (storeData r2 (storeData r1 c id d1).collection id d2).collection
          id).completion
        = .resolved { success := true, data := some d2 } ∧
      ∀ fields name, d2 = .object fields → fields.lookup name = none →
        ∀ document,
          (storeData r2 (storeData r1 c id d1).collection id d2).collection id = some document →
            document.getProp name = .ok .undefined := by
  have e1 := storeData_performs_of_success r1 c id d1 h1
  subst e1
  have e2 := storeData_performs_of_success r2 _ id d2 h2
  subst e2
  have hdoc : (storeData .performs (storeData .performs c id d1).collection id d2).collection id
      = some d2 := by
    simp [storeData, Collection.set]
  refine ⟨hdoc, getData_performs_of_some _ _ _ hdoc, ?_⟩
  intro fields name hd hname document hdocument
  rw [hdoc] at hdocument
  cases hdocument
  subst hd
  simp [getProp, hname]

/-- C4, witness: `{label, score}` overwritten by `{label}`; `score` is gone. -/
theorem second_store_overwrites_witness :
    (getData .performs
        (storeData .performs
          (storeData .performs Collection.empty "pred-1"
            (.object [("label", .string "cat"), ("score", .number (92 / 100))])).collection
          "pred-1" (.object [("label", .string "dog")])).collection
        "pred-1").completion
      = .resolved { success := true, data := some (.object [("label", .string "dog")]) } :=
  (second_store_overwrites .performs .performs Collection.empty "pred-1"
    (.object [("label", .string "cat"), ("score", .number (92 / 100))])
    (.object [("label", .string "dog")]) rfl rfl).2.1

theorem Collection.delete_of_none (c : Collection) (id : String) (h : c id = none) :
    c.delete id = c := by
  funext k
  by_cases hk : k = id
  · simp [Collection.delete, hk, h]
  · simp [Collection.delete, hk]

/-- C5, counterexample.  The empty string has no document in the empty
collection; the client rejects it as a document path inside the `try` block,
and `deleteData` returns `{success: false, error}` rather than
`{success: true}`. -/
theorem delete_of_rejected_id_fails :
    Collection.empty "" = none ∧
      (deleteData
          (.raises (.object [("message", .string
            "Value for argument \"documentPath\" is not a valid resource path. Path must be a non-empty string.")]))
          Collection.empty "").completion
        = .resolved
            { success := false, data := none
              error := some (.string
                "Value for argument \"documentPath\" is not a valid resource path. Path must be a non-empty string.") } :=
  ⟨rfl, rfl⟩

/-- C5, as amended.  For an id that has no document, `deleteData(id)` leaves
the collection as it was, whatever the outcome of the remote call.  For every
collection and id, `deleteData(id)` returns `{success: true}` exactly when the
remote delete is carried out (does not raise), and the id then has no document.
It is idempotent: after a `deleteData(id)` that returned `{success: true}`, a
second `deleteData(id)` leaves the collection as the first left it, whatever
its remote outcome, and returns `{success: true}` exactly when its own remote
call is carried out. -/
theorem delete_is_idempotent (first second : Remote) (c : Collection) (id : String) :
    (c id = none → (deleteData first c id).collection = c) ∧
      ((deleteData first c id).completion = .resolved { success := true }
        ↔ first = .performs) ∧
      ((deleteData first c id).completion = .resolved { success := true } →
        (deleteData first c id).collection id = none ∧
          (deleteData second (deleteData first c id).collection id).collection
            = (deleteData first c id).collection ∧
          ((deleteData second (deleteData first c id).collection id).completion
              = .resolved { success := true }
            ↔ second = .performs)) := by
  have hiff : ∀ (remote : Remote) (c' : Collection),
      (deleteData remote c' id).completion = .resolved { success := true }
        ↔ remote = .performs := by
    intro remote c'
    constructor
    · exact deleteData_performs_of_success remote c' id
    · rintro rfl
      rfl
  have hmissing : ∀ (remote : Remote) (c' : Collection), c' id = none →
      (deleteData remote c' id).collection = c' := by
    intro remote c' h
    cases remote with
    | performs => exact Collection.delete_of_none c' id h
    | raises error => exact catchBlock_collection _ _ error c'
  refine ⟨hmissing first c, hiff first c, ?_⟩
  intro h
  have hgone : (deleteData first c id).collection id = none := by
    rw [(hiff first c).mp h]
    simp [deleteData, Collection.delete]
  exact ⟨hgone, hmissing second _ hgone, hiff second _⟩

/-- C5, witness: in the collection holding a document at `pred-1`, deleting
`pred-2` changes nothing, and deleting `pred-1` twice leaves what deleting it
once leaves. -/
theorem delete_is_idempotent_witness :
    (deleteData .performs
        (storeData .performs Collection.empty "pred-1"
          (.object [("label", .string "cat")])).collection
        "pred-2").collection
        = (storeData .performs Collection.empty "pred-1"
            (.object [("label", .string "cat")])).collection ∧
      (deleteData .performs
          (deleteData .performs
            (storeData .performs Collection.empty "pred-1"
              (.object [("label", .string "cat")])).collection
            "pred-1").collection
          "pred-1").collection
        = (deleteData .performs
            (storeData .performs Collection.empty "pred-1"
              (.object [("label", .string "cat")])).collection
            "pred-1").collection :=
  ⟨(delete_is_idempotent .performs .performs
      (storeData .performs Collection.empty "pred-1"
        (.object [("label", .string "cat")])).collection "pred-2").1
      (by simp [storeData, Collection.set, Collection.empty]),
   ((delete_is_idempotent .performs .performs
      (storeData .performs Collection.empty "pred-1"
        (.object [("label", .string "cat")])).collection "pred-1").2.2 rfl).2.1⟩

/-- C6.  After `storeData(id, data)` returns `{success: true}` and then
`deleteData(id)` returns `{success: true}`, `getData(id)` returns
`{success: false, error: "Dokumen tidak ditemukan"}`.  Every other id is left
as it was: a document stored under it is still there and `getData` returns
`{success: true, data: document}` with that very document, and an id that had
no document still has none. -/
theorem store_delete_then_get (r1 r2 : Remote) (c : Collection) (id : String) (data : JsValue)
    (hstore : (storeData r1 c id data).completion = .resolved { success := true })
    (hdelete : (deleteData r2 (storeData r1 c id data).collection id).completion
                = .resolved { success := true }) :
    (getData .performs (deleteData r2 (storeData r1 c id data).collection id).collection
        id).completion
        = .resolved { success := false, data := none,
                      error := some (.string "Dokumen tidak ditemukan") } ∧
      ∀ other, other ≠ id →
        (deleteData r2 (storeData r1 c id data).collection id).collection other = c other ∧
          (∀ document, c other = some document →
            (getData .performs (deleteData r2 (storeData r1 c id data).collection id).collection
                other).completion
              = .resolved { success := true, data := some document, error := none }) ∧
          (c other = none →
            (getData .performs (deleteData r2 (storeData r1 c id data).collection id).collection
                other).completion
              = .resolved { success := false, data := none,
                            error := some (.string "Dokumen tidak ditemukan") }) ∧
          (getData .performs (deleteData r2 (storeData r1 c id data).collection id).collection
              other).completion
            = (getData .performs c other).completion := by
  have e1 := storeData_performs_of_success r1 c id data hstore
  subst e1
  have e2 := deleteData_performs_of_success r2 _ id hdelete
  subst e2
  constructor
  · rw [getData_performs_of_none]
    simp [deleteData, Collection.delete]
  · intro other hother
    have hsame : (deleteData .performs (storeData .performs c id data).collection id).collection
        other = c other := by
      simp [deleteData, storeData, Collection.delete, Collection.set, hother]
    refine ⟨hsame, ?_, ?_, ?_⟩
    · intro document hdoc
      exact getData_performs_of_some _ _ _ (hsame.trans hdoc)
    · intro hnone
      rw [getData_performs_of_none _ _ (hsame.trans hnone)]
    · simp only [getData, hsame]
      cases c other <;> rfl

/-- C6, witness: with a document already stored under `pred-2`, the spec's
example on `pred-1`: stored, deleted, then not found, while `pred-2` is still
returned. -/
theorem store_delete_then_get_witness :
    (getData .performs
        (deleteData .performs
          (storeData .performs
            (storeData .performs Collection.empty "pred-2"
              (.object [("label", .string "dog")])).collection
            "pred-1"
            (.object [("label", .string "cat"), ("score", .number (92 / 100))])).collection
          "pred-1").collection
        "pred-1").completion
        = .resolved { success := false, data := none,
                      error := some (.string "Dokumen tidak ditemukan") } ∧
      (getData .performs
        (deleteData .performs
          (storeData .performs
            (storeData .performs Collection.empty "pred-2"
              (.object [("label", .string "dog")])).collection
            "pred-1"
            (.object [("label", .string "cat"), ("score", .number (92 / 100))])).collection
          "pred-1").collection
        "pred-2").completion
        = .resolved { success := true, data := some (.object [("label", .string "dog")]),
                      error := none } :=
  ⟨(store_delete_then_get .performs .performs
      (storeData .performs Collection.empty "pred-2"
        (.object [("label", .string "dog")])).collection
      "pred-1" (.object [("label", .string "cat"), ("score", .number (92 / 100))]) rfl rfl).1,
   ((store_delete_then_get .performs .performs
      (storeData .performs Collection.empty "pred-2"
        (.object [("label", .string "dog")])).collection
      "pred-1" (.object [("label", .string "cat"), ("score", .number (92 / 100))]) rfl rfl).2
      "pred-2" (by decide)).2.1 _ (by simp [storeData, Collection.set])⟩

/-- C10, counterexample.  A remote read that fails with an error whose message
is `Dokumen tidak ditemukan` gives the very Result that a missing document
gives. -/
theorem remote_failure_reads_as_not_found :
    (getData (.raises (.object [("message", .string "Dokumen tidak ditemukan")]))
        Collection.empty "pred-1").completion
        = .resolved { success := false, error := some (.string "Dokumen tidak ditemukan") } ∧
      (getData .performs Collection.empty "pred-1").completion
        = .resolved { success := false, error := some (.string "Dokumen tidak ditemukan") } :=
  ⟨rfl, rfl⟩

/-- C10, as amended.  For every id and every remote failure whose raised value
does not carry the message `Dokumen tidak ditemukan`, what `getData` settles
in is not the Result `{success: false, error: "Dokumen tidak ditemukan"}` of a
missing document. -/
theorem remote_failure_differs_from_not_found (c : Collection) (id : String) (error : JsValue)
    (h : error.getProp "message" ≠ .ok (.string "Dokumen tidak ditemukan")) :
    (getData (.raises error) c id).completion
      ≠ .resolved { success := false, error := some (.string "Dokumen tidak ditemukan") } := by
  simp only [getData, catchBlock]
  cases hg : error.getProp "message" with
  | error fault => simp
  | ok message =>
    by_cases hs : message.stringifies = true
    · simp only [hs, if_true]
      intro heq
      simp only [Completion.resolved.injEq, Result.mk.injEq, Option.some.injEq, true_and] at heq
      unfold JsValue.or at heq
      split at heq
      · rw [hg, heq] at h
        exact h rfl
      · simp at heq
    · simp [hs]

/-- C10, witness: a read failing with the message `UNAVAILABLE`. -/
theorem remote_failure_differs_from_not_found_witness :
    (getData (.raises (.object [("message", .string "UNAVAILABLE")]))
        Collection.empty "pred-1").completion
      ≠ .resolved { success := false, error := some (.string "Dokumen tidak ditemukan") } :=
  remote_failure_differs_from_not_found Collection.empty "pred-1" _
    (by simp [getProp, List.lookup])

/-! ## The key replacement: lemmas -/

theorem replace_head_n (k rest : List Char) (h : replaceEscapedNewlines k = 'n' :: rest) :
    ∃ r, k = 'n' :: r := by
  induction k using replaceEscapedNewlines.induct with
  | case1 r _ => simp [replaceEscapedNewlines] at h
  | case2 c r hc _ =>
    rw [replaceEscapedNewlines.eq_2 c r hc] at h
    simp at h
    exact ⟨r, by rw [h.1]⟩
  | case3 => simp [replaceEscapedNewlines] at h

theorem escaped_prefix_iff (c : Char) (l : List Char) :
    escapedNewline <+: c :: l ↔ c = '\\' ∧ ∃ r, l = 'n' :: r := by
  constructor
  · rintro ⟨t, ht⟩
    simp [escapedNewline] at ht
    exact ⟨ht.1.symm, t, ht.2.symm⟩
  · rintro ⟨rfl, r, rfl⟩
    exact ⟨r, rfl⟩

theorem replace_no_escaped (k : List Char) : ¬ escapedNewline <:+: replaceEscapedNewlines k := by
  induction k using replaceEscapedNewlines.induct with
  | case1 r ih =>
    rw [replaceEscapedNewlines.eq_1, List.infix_cons_iff, escaped_prefix_iff]
    rintro (⟨h, -⟩ | h)
    · exact absurd h (by decide)
    · exact ih h
  | case2 c r hc ih =>
    rw [replaceEscapedNewlines.eq_2 c r hc, List.infix_cons_iff, escaped_prefix_iff]
    rintro (⟨h, t, ht⟩ | h)
    · obtain ⟨r', hr'⟩ := replace_head_n r t ht
      exact hc r' h hr'
    · exact ih h
  | case3 => simp [replaceEscapedNewlines, escapedNewline]

theorem replace_of_no_escaped (k : List Char) (h : ¬ escapedNewline <:+: k) :
    replaceEscapedNewlines k = k := by
  induction k using replaceEscapedNewlines.induct with
  | case1 r _ => exact absurd ⟨[], r, rfl⟩ h
  | case2 c r hc ih =>
    rw [replaceEscapedNewlines.eq_2 c r hc, ih]
    intro hr
    exact h (List.infix_cons_iff.mpr (Or.inr hr))
  | case3 => rfl

theorem occurrences_match (rest : List Char) :
    occurrences ('\\' :: 'n' :: rest) = occurrences rest + 1 := by
  simp [occurrences, List.tails, List.countP_cons, escapedNewline]

theorem occurrences_skip (c : Char) (rest : List Char)
    (hc : ∀ r, c = '\\' → rest = 'n' :: r → False) :
    occurrences (c :: rest) = occurrences rest := by
  have hno : ¬ escapedNewline <+: c :: rest := by
    rw [escaped_prefix_iff]
    rintro ⟨h, r, hr⟩
    exact hc r h hr
  simp [occurrences, List.tails, List.countP_cons, hno]

theorem replace_length (k : List Char) :
    (replaceEscapedNewlines k).length + occurrences k = k.length := by
  induction k using replaceEscapedNewlines.induct with
  | case1 r ih =>
    rw [replaceEscapedNewlines.eq_1, occurrences_match]
    simp only [List.length_cons]
    omega
  | case2 c r hc ih =>
    rw [replaceEscapedNewlines.eq_2 c r hc, occurrences_skip c r hc]
    simp only [List.length_cons]
    omega
  | case3 => rfl

theorem intercalate_cons_cons (sep p q : List Char) (ps : List (List Char)) :
    List.intercalate sep (p :: q :: ps) = p ++ sep ++ List.intercalate sep (q :: ps) := by
  simp [List.intercalate, List.intersperse]

theorem intercalate_push_head (sep : List Char) (c : Char) (p : List Char)
    (ps : List (List Char)) :
    List.intercalate sep ((c :: p) :: ps) = c :: List.intercalate sep (p :: ps) := by
  cases ps with
  | nil => simp [List.intercalate, List.intersperse]
  | cons q qs => simp [intercalate_cons_cons]

theorem replace_decomposition (k : List Char) :
    ∃ pieces : List (List Char),
      pieces.length = occurrences k + 1 ∧
        (∀ p ∈ pieces, ¬ escapedNewline <:+: p) ∧
        k = List.intercalate escapedNewline pieces ∧
        replaceEscapedNewlines k = List.intercalate ['\n'] pieces := by
  induction k using replaceEscapedNewlines.induct with
  | case1 r ih =>
    obtain ⟨pieces, hlen, hfree, hk, hrep⟩ := ih
    cases pieces with
    | nil => simp at hlen
    | cons p ps =>
      refine ⟨[] :: p :: ps, ?_, ?_, ?_, ?_⟩
      · simp [occurrences_match] at hlen ⊢
        omega
      · intro x hx
        rcases List.mem_cons.mp hx with rfl | hx
        · simp [escapedNewline]
        · exact hfree x hx
      · rw [intercalate_cons_cons, ← hk]
        rfl
      · rw [intercalate_cons_cons, ← hrep, replaceEscapedNewlines.eq_1]
        rfl
  | case2 c r hc ih =>
    obtain ⟨pieces, hlen, hfree, hk, hrep⟩ := ih
    cases pieces with
    | nil => simp at hlen
    | cons p ps =>
      refine ⟨(c :: p) :: ps, ?_, ?_, ?_, ?_⟩
      · rw [occurrences_skip c r hc]
        simpa using hlen
      · intro x hx
        rcases List.mem_cons.mp hx with rfl | hx
        · rw [List.infix_cons_iff, escaped_prefix_iff]
          rintro (⟨h, t, rfl⟩ | h)
          · rw [intercalate_push_head] at hk
            exact hc _ h hk
          · exact hfree p (List.mem_cons_self _ _) h
        · exact hfree x (List.mem_cons_of_mem _ hx)
      · rw [intercalate_push_head, ← hk]
      · rw [intercalate_push_head, ← hrep, replaceEscapedNewlines.eq_2 c r hc]
  | case3 =>
    exact ⟨[[]], rfl, by simp [escapedNewline], rfl, rfl⟩

theorem replace_piece_append (p rest : List Char) (hp : ¬ escapedNewline <:+: p) :
    replaceEscapedNewlines (p ++ escapedNewline ++ rest) = p ++ '\n' :: replaceEscapedNewlines rest := by
  induction p with
  | nil => exact replaceEscapedNewlines.eq_1 rest
  | cons c p ih =>
    have hp' : ¬ escapedNewline <:+: p := fun h => hp (List.infix_cons_iff.mpr (Or.inr h))
    have hc : ∀ r, c = '\\' → p ++ escapedNewline ++ rest = 'n' :: r → False := by
      intro r hce hr
      cases p with
      | nil => simp [escapedNewline] at hr
      | cons d p' =>
        simp only [List.cons_append, List.cons.injEq] at hr
        exact hp ⟨[], p', by simp [escapedNewline, hce, hr.1]⟩
    have hstep : replaceEscapedNewlines (c :: (p ++ escapedNewline ++ rest))
        = c :: replaceEscapedNewlines (p ++ escapedNewline ++ rest) :=
      replaceEscapedNewlines.eq_2 c _ hc
    rw [List.cons_append, List.cons_append, hstep, ih hp']
    rfl

theorem replace_intercalate (pieces : List (List Char))
    (hfree : ∀ p ∈ pieces, ¬ escapedNewline <:+: p) :
    replaceEscapedNewlines (List.intercalate escapedNewline pieces)
      = List.intercalate ['\n'] pieces := by
  induction pieces with
  | nil => rfl
  | cons p ps ih =>
    cases ps with
    | nil =>
      simpa [List.intercalate, List.intersperse] using
        replace_of_no_escaped p (hfree p (List.mem_cons_self _ _))
    | cons q qs =>
      rw [intercalate_cons_cons, intercalate_cons_cons,
        replace_piece_append p _ (hfree p (List.mem_cons_self _ _)),
        ih (fun x hx => hfree x (List.mem_cons_of_mem _ hx))]
      simp

/-! ## Module initialisation: lemmas -/

theorem getProp_ok_of_ok (key : JsValue) (a b : String) (v : JsValue)
    (h : key.getProp a = .ok v) : ∃ w, key.getProp b = .ok w := by
  cases key <;> simp_all [getProp]

theorem initModule_unparsable (raw : String) (hraw : raw ≠ "") :
    initModule (some raw) none = .aborted unparsableKeyMessage := by
  simp [initModule, envValue, truthy, hraw]

theorem initModule_constructs (raw : String) (hraw : raw ≠ "") (key : JsValue)
    (private_key : String) (hkey : key.getProp "private_key" = .ok (.string private_key)) :
    ∃ project_id client_email,
      key.getProp "project_id" = .ok project_id ∧
        key.getProp "client_email" = .ok client_email ∧
        initModule (some raw) (some key)
          = .constructs
              { projectId := project_id
                client_email := client_email
                private_key := formattedPrivateKey private_key } := by
  obtain ⟨project_id, hp⟩ := getProp_ok_of_ok key "private_key" "project_id" _ hkey
  obtain ⟨client_email, he⟩ := getProp_ok_of_ok key "private_key" "client_email" _ hkey
  refine ⟨project_id, client_email, hp, he, ?_⟩
  simp [initModule, envValue, truthy, hraw, hkey, hp, he]

theorem initModule_faulted (raw : String) (hraw : raw ≠ "") (key : JsValue)
    (hkey : ∀ s, key.getProp "private_key" ≠ .ok (.string s)) :
    initModule (some raw) (some key) = .faulted .typeError := by
  simp only [initModule, envValue, truthy, hraw, ne_eq, not_false_eq_true, decide_True,
    Bool.not_true, Bool.false_eq_true, if_false]
  split
  · rename_i fault _
    cases fault
    rfl
  · rename_i s hs
    exact absurd hs (hkey s)
  · rfl

theorem initModule_nonempty_ne_missing (raw : String) (hraw : raw ≠ "")
    (parsed : Option JsValue) :
    initModule (some raw) parsed ≠ .aborted missingKeyMessage := by
  cases parsed with
  | none =>
    rw [initModule_unparsable raw hraw]
    simp [missingKeyMessage, unparsableKeyMessage]
  | some key =>
    by_cases hkey : ∃ s, key.getProp "private_key" = .ok (.string s)
    · obtain ⟨s, hs⟩ := hkey
      obtain ⟨_, _, _, _, h⟩ := initModule_constructs raw hraw key s hs
      rw [h]
      simp
    · rw [initModule_faulted raw hraw key (fun s hs => hkey ⟨s, hs⟩)]
      simp

/-! ## Module initialisation: claims -/

/-- C8.  For every `private_key` string `k`: cut `k` at its occurrences of
backslash-`n` into pieces free of that sequence, one more piece than there
are occurrences; the formatted key is those pieces joined by one line feed
each (and so for any such cut of `k`).  The formatted key contains no
backslash-`n`, its length is the length of `k` minus the number of
occurrences, a key without the sequence is returned unchanged, and formatting
a formatted key changes nothing. -/
theorem formattedPrivateKey_replaces_each_escape (k : String) :
    (∃ pieces : List (List Char),
        pieces.length = occurrences k.data + 1 ∧
          (∀ p ∈ pieces, ¬ escapedNewline <:+: p) ∧
          k.data = List.intercalate escapedNewline pieces ∧
          (formattedPrivateKey k).data = List.intercalate ['\n'] pieces) ∧
      (∀ pieces : List (List Char), (∀ p ∈ pieces, ¬ escapedNewline <:+: p) →
        k.data = List.intercalate escapedNewline pieces →
        (formattedPrivateKey k).data = List.intercalate ['\n'] pieces) ∧
      ¬ escapedNewline <:+: (formattedPrivateKey k).data ∧
      (formattedPrivateKey k).length + occurrences k.data = k.length ∧
      (formattedPrivateKey k).length = k.length - occurrences k.data ∧
      (¬ escapedNewline <:+: k.data → formattedPrivateKey k = k) ∧
      formattedPrivateKey (formattedPrivateKey k) = formattedPrivateKey k := by
  have hlen := replace_length k.data
  refine ⟨replace_decomposition k.data, ?_, replace_no_escaped k.data, hlen, ?_, ?_, ?_⟩
  · intro pieces hfree hk
    show replaceEscapedNewlines k.data = _
    rw [hk]
    exact replace_intercalate pieces hfree
  · show (replaceEscapedNewlines k.data).length = k.data.length - occurrences k.data
    omega
  · intro h
    show (⟨replaceEscapedNewlines k.data⟩ : String) = k
    rw [replace_of_no_escaped k.data h]
  · show (⟨replaceEscapedNewlines (replaceEscapedNewlines k.data)⟩ : String) = _
    rw [replace_of_no_escaped _ (replace_no_escaped k.data)]
    rfl

/-- C8, witness: a two-line key written on one line, and a key with nothing to
replace. -/
theorem formattedPrivateKey_replaces_each_escape_witness :
    formattedPrivateKey "-----BEGIN-----\\nMIIE\\\\nQ\\n" = "-----BEGIN-----\nMIIE\\\nQ\n" ∧
      formattedPrivateKey "MIIE\nQ\\" = "MIIE\nQ\\" :=
  ⟨by decide, (formattedPrivateKey_replaces_each_escape "MIIE\nQ\\").2.2.2.2.2.1 (by decide)⟩

/-- C7, counterexample.  A variable that is present but empty fails with the
missing-configuration error, not with the malformed-configuration one, although
the empty string is not valid JSON (`parsed` is `none`). -/
theorem empty_key_reports_missing :
    initModule (some "") none = .aborted missingKeyMessage ∧
      initModule (some "") none ≠ .aborted unparsableKeyMessage :=
  ⟨rfl, by simp [initModule, envValue, truthy, missingKeyMessage, unparsableKeyMessage]⟩

/-- C7, as amended.  Module initialisation fails with the missing-configuration
error exactly when `SERVICE_ACCOUNT_KEY` is absent or empty; for every present,
non-empty value that is not valid JSON it fails with the error
`SERVICE_ACCOUNT_KEY tidak dapat diparsing. Pastikan JSON valid.`, whose message
differs from the missing-configuration one; in each of these cases no client is
constructed and no operation is exported. -/
theorem missing_and_unparsable_key_abort (env : Option String) (parsed : Option JsValue)
    (raw : String) (hraw : raw ≠ "") :
    (initModule env parsed = .aborted missingKeyMessage ↔ env = none ∨ env = some "") ∧
      initModule (some raw) none
        = .aborted "SERVICE_ACCOUNT_KEY tidak dapat diparsing. Pastikan JSON valid." ∧
      missingKeyMessage ≠ "SERVICE_ACCOUNT_KEY tidak dapat diparsing. Pastikan JSON valid." ∧
      (initModule none parsed).exportsOperations = false ∧
      (initModule (some "") parsed).exportsOperations = false ∧
      (initModule (some raw) none).exportsOperations = false := by
  have hnone : initModule none parsed = .aborted missingKeyMessage := rfl
  have hempty : initModule (some "") parsed = .aborted missingKeyMessage := rfl
  have hunparsable := initModule_unparsable raw hraw
  refine ⟨⟨?_, ?_⟩, hunparsable, by decide, ?_, ?_, ?_⟩
  · intro h
    cases env with
    | none => exact Or.inl rfl
    | some text =>
      by_cases ht : text = ""
      · exact Or.inr (by rw [ht])
      · exact absurd h (initModule_nonempty_ne_missing text ht parsed)
  · rintro (rfl | rfl)
    · exact hnone
    · exact hempty
  · rw [hnone]; rfl
  · rw [hempty]; rfl
  · rw [hunparsable]; rfl

/-- C7, witness: the value `not json`. -/
theorem missing_and_unparsable_key_abort_witness :
    initModule (some "not json") none
      = .aborted "SERVICE_ACCOUNT_KEY tidak dapat diparsing. Pastikan JSON valid." :=
  (missing_and_unparsable_key_abort none none "not json" (by decide)).2.1

/-- C9, counterexample.  The value `null` is valid JSON; initialisation then
stops with a TypeError, which is neither configuration error.  The value
`{"private_key":"k"}` reaches client construction with `project_id` and
`client_email` undefined. -/
theorem unvalidated_key_faults_or_constructs :
    initModule (some "null") (some .null) = .faulted .typeError ∧
      initModule (some "\x7b\"private_key\":\"k\"\x7d")
          (some (.object [("private_key", .string "k")]))
        = .constructs
            { projectId := .undefined, client_email := .undefined, private_key := "k" } :=
  ⟨rfl, rfl⟩

/-- C9, as amended.  For every present, non-empty value of the variable: when
it is not valid JSON, loading aborts with the malformed-configuration error;
when it parses to a value whose `private_key` is a string, client construction
is reached with that key formatted and with `project_id` and `client_email`
passed on as read from the parsed value, unvalidated; when it parses to
anything else (`null`, a number, a string, an object without a string
`private_key`), loading stops before client construction with a TypeError,
which is neither of the two configuration errors. -/
theorem credential_loading_outcomes (raw : String) (hraw : raw ≠ "")
    (parsed : Option JsValue) :
    (parsed = none → initModule (some raw) parsed = .aborted unparsableKeyMessage) ∧
      (∀ key private_key, parsed = some key →
        key.getProp "private_key" = .ok (.string private_key) →
        ∃ project_id client_email,
          key.getProp "project_id" = .ok project_id ∧
            key.getProp "client_email" = .ok client_email ∧
            initModule (some raw) parsed
              = .constructs
                  { projectId := project_id
                    client_email := client_email
                    private_key := formattedPrivateKey private_key }) ∧
      (∀ key, parsed = some key →
        (∀ s, key.getProp "private_key" ≠ .ok (.string s)) →
        initModule (some raw) parsed = .faulted .typeError ∧
          (initModule (some raw) parsed).exportsOperations = false) := by
  refine ⟨?_, ?_, ?_⟩
  · rintro rfl
    exact initModule_unparsable raw hraw
  · rintro key private_key rfl hkey
    exact initModule_constructs raw hraw key private_key hkey
  · rintro key rfl hkey
    have h := initModule_faulted raw hraw key hkey
    exact ⟨h, by rw [h]; rfl⟩

/-- C9, witness: a JSON number, which has no `private_key`. -/
theorem credential_loading_outcomes_witness :
    initModule (some "5") (some (.number 5)) = .faulted .typeError ∧
      (initModule (some "5") (some (.number 5))).exportsOperations = false :=
  (credential_loading_outcomes "5" (by decide) (some (.number 5))).2.2 (.number 5) rfl
    (by intro s; simp [getProp])

end DataService
